import Mathlib

/-!
Verification of the juliet serial message protocol (juliet.py).

This file embeds the message codec (frame grammar, checksum, content
codecs), the broker receive path and the two transport implementations
of juliet.py as executable Lean definitions, and proves or refutes the
frozen specification claims about them.

Modelling conventions:
* Python `str` is modelled as `List Char`; Python `bytes` as `List Nat`
  (each element a byte value).
* Fallible Python code (uncaught exceptions) is modelled with `Except
  PyError`; `None` results with `Option`.
* `datetime` values are records of calendar fields; all instants are
  UTC (the code normalises to UTC on construction).  `datetime.now()`
  is modelled by passing the current instant `now` as an argument.
* The external zlib-deflate + base64 pipeline used by
  `CompressedMessage.compress` and `.decompress` is an external library
  dependency, kept as a parameter (`ContentCodec`) of the embedding.
  Every claim settled below is independent of the concrete codec, or is
  instantiated at an explicit codec.
* The regular expression `packed_msg_re` is embedded as a deterministic
  parser; determinism of the backtracking search is argued inline where
  each field is parsed.
-/

namespace Juliet

set_option maxRecDepth 100000

abbrev PyStr := List Char
abbrev PyBytes := List Nat

/-- Exceptions that can escape `Message.unpack` (UnicodeDecodeError is
caught inside `unpack` and therefore never appears here). -/
inductive PyError where
  | unsupportedVersion   -- `raise Exception('unsupported version')`
  | valueError           -- int(...,16) / strptime / tuple unpacking / zlib-b64 failures
  | typeError            -- strptime(None, ...)
deriving DecidableEq

/-! ## Character classes of the frame grammar (juliet.py line 20)

`packed_msg_re = re.compile(r'^>>(?P<ver>[a-fA-F0-9]+):(?P<crc>[a-zA-Z0-9]+):
(?P<sender>[a-zA-Z0-9~/=+_$@#*&%!|-]+)?:(?P<time>[0-9]{14})?:
(?P<msg>.+)(?!\\):(?P<sig>[a-zA-Z0-9]+)?<<$')` -/

def isDigitCh (c : Char) : Bool := decide ('0' ≤ c) && decide (c ≤ '9')

def isHexDigitCh (c : Char) : Bool :=
  isDigitCh c || (decide ('a' ≤ c) && decide (c ≤ 'f')) || (decide ('A' ≤ c) && decide (c ≤ 'F'))

def isAsciiAlnum (c : Char) : Bool :=
  isDigitCh c || (decide ('a' ≤ c) && decide (c ≤ 'z')) || (decide ('A' ≤ c) && decide (c ≤ 'Z'))

def senderSymbols : PyStr := ['~', '/', '=', '+', '_', '$', '@', '#', '*', '&', '%', '!', '|', '-']

def isSenderCh (c : Char) : Bool := isAsciiAlnum c || senderSymbols.contains c

/-! ## UTF-8 (Python `bytes(text,'utf-8')` / `str(data,'utf-8')`, strict) -/

def utf8EncodeChar (c : Char) : PyBytes :=
  let n := c.toNat
  if n < 0x80 then [n]
  else if n < 0x800 then [0xC0 + n / 0x40, 0x80 + n % 0x40]
  else if n < 0x10000 then [0xE0 + n / 0x1000, 0x80 + (n / 0x40) % 0x40, 0x80 + n % 0x40]
  else [0xF0 + n / 0x40000, 0x80 + (n / 0x1000) % 0x40, 0x80 + (n / 0x40) % 0x40, 0x80 + n % 0x40]

def utf8Encode (s : PyStr) : PyBytes := s.foldr (fun c acc => utf8EncodeChar c ++ acc) []

def isContByte (b : Nat) : Bool := decide (0x80 ≤ b) && decide (b ≤ 0xBF)

def utf8Lead3Ok (b b2 : Nat) : Bool :=
  if b = 0xE0 then decide (0xA0 ≤ b2) && decide (b2 ≤ 0xBF)
  else if b = 0xED then decide (0x80 ≤ b2) && decide (b2 ≤ 0x9F)
  else isContByte b2

def utf8Lead4Ok (b b2 : Nat) : Bool :=
  if b = 0xF0 then decide (0x90 ≤ b2) && decide (b2 ≤ 0xBF)
  else if b = 0xF4 then decide (0x80 ≤ b2) && decide (b2 ≤ 0x8F)
  else isContByte b2

/-- Strict UTF-8 decoding (rejects overlong forms, surrogates and
code points above U+10FFFF, as Python's strict `'utf-8'` codec does). -/
def utf8Decode : PyBytes → Option PyStr
  | [] => some []
  | b :: bs =>
    if b < 0x80 then
      match utf8Decode bs with
      | none => none
      | some cs => some (Char.ofNat b :: cs)
    else if b < 0xC2 then none
    else if b ≤ 0xDF then
      match bs with
      | b2 :: bs2 =>
        if isContByte b2 then
          match utf8Decode bs2 with
          | none => none
          | some cs => some (Char.ofNat ((b - 0xC0) * 0x40 + (b2 - 0x80)) :: cs)
        else none
      | [] => none
    else if b ≤ 0xEF then
      match bs with
      | b2 :: b3 :: bs3 =>
        if utf8Lead3Ok b b2 && isContByte b3 then
          match utf8Decode bs3 with
          | none => none
          | some cs =>
            some (Char.ofNat ((b - 0xE0) * 0x1000 + (b2 - 0x80) * 0x40 + (b3 - 0x80)) :: cs)
        else none
      | _ => none
    else if b ≤ 0xF4 then
      match bs with
      | b2 :: b3 :: b4 :: bs4 =>
        if utf8Lead4Ok b b2 && isContByte b3 && isContByte b4 then
          match utf8Decode bs4 with
          | none => none
          | some cs =>
            some (Char.ofNat
              ((b - 0xF0) * 0x40000 + (b2 - 0x80) * 0x1000 + (b3 - 0x80) * 0x40 + (b4 - 0x80)) :: cs)
        else none
      | _ => none
    else none

/-! ## CRC16 (juliet.py lines 43-61) and checksum (lines 64-73) -/

/-- One iteration of the inner `for _ in range(0, 8)` loop of `crc16`:
`if (crc & 0x0001) ^ (cur_byte & 0x0001): crc = (crc >> 1) ^ poly
else: crc >>= 1` followed by `cur_byte >>= 1`.  The fuel argument is
the remaining iteration count (8 at the top of the loop). -/
def crc16ByteAux : Nat → Nat → Nat → Nat
  | 0, crc, _ => crc
  | n + 1, crc, cur =>
    crc16ByteAux n
      (if ((crc &&& 1) ^^^ (cur &&& 1)) ≠ 0 then (crc >>> 1) ^^^ 0x1021 else crc >>> 1)
      (cur >>> 1)

/-- The body of the outer `for b in data` loop: `cur_byte = 0xFF & b`
then 8 bit-serial iterations. -/
def crc16Byte (crc b : Nat) : Nat := crc16ByteAux 8 crc (0xFF &&& b)

/-- The final two lines of `crc16`: `crc = (~crc & 0xFFFF)` (in Python,
`~crc & 0xFFFF` is the low 16 bits of `crc` flipped) and
`crc = (crc << 8) | ((crc >> 8) & 0xFF)`, returned as `crc & 0xFFFF`. -/
def crc16Fin (r : Nat) : Nat :=
  ((((r &&& 0xFFFF) ^^^ 0xFFFF) <<< 8) |||
    ((((r &&& 0xFFFF) ^^^ 0xFFFF) >>> 8) &&& 0xFF)) &&& 0xFFFF

/-- `crc16(data, crc=0xFFFF, poly=0x1021)` on a byte sequence. -/
def crc16 (data : PyBytes) (crc : Nat) : Nat := crc16Fin (data.foldl crc16Byte crc)

/-- `crc16` applied to a `str` argument: the `isinstance(data, str)`
branch encodes it as UTF-8 first. -/
def crc16Str (s : PyStr) (crc : Nat) : Nat := crc16 (utf8Encode s) crc

/-- `checksum(*parts)`: starts from 0xFFFF and chains `crc16` over the
parts, skipping parts that are `None`. -/
def checksum (parts : List (Option PyStr)) : Nat :=
  parts.foldl (fun crc part => match part with | none => crc | some p => crc16Str p crc) 0xFFFF

/-! ## Specification-level restatement of the CRC (spec section 4.1)

"16-bit cyclic redundancy check: polynomial 0x1021, initial value
0xFFFF, bit-serial processing of each input byte LSB-first, final
one's-complement plus byte-swap."  These definitions follow the spec's
words; their agreement with `crc16` above is proved in claim C4. -/

def crc16BitStep (crc : Nat) (bit : Bool) : Nat :=
  if (decide (crc % 2 = 1) != bit) then (crc >>> 1) ^^^ 0x1021 else crc >>> 1

/-- The bits of one byte, least-significant first. -/
def byteBitsLSB (b : Nat) : List Bool := (List.range 8).map (fun i => Nat.testBit b i)

def complement16 (c : Nat) : Nat := 0xFFFF ^^^ (c &&& 0xFFFF)

def swapBytes16 (c : Nat) : Nat := ((c <<< 8) ||| (c >>> 8)) &&& 0xFFFF

def crc16_ccitt_spec (data : PyBytes) (crc0 : Nat) : Nat :=
  swapBytes16 (complement16 (data.foldl (fun c b => (byteBitsLSB b).foldl crc16BitStep c) crc0))

/-! ## Timestamps (format_timestamp / parse_timestamp, lines 34-39) -/

structure DateTime where
  year : Nat
  month : Nat
  day : Nat
  hour : Nat
  minute : Nat
  second : Nat
  micro : Nat
deriving DecidableEq

/-- `timestamp.replace(microsecond=0)` - juliet messages are only
accurate to the second (line 115). -/
def truncSeconds (t : DateTime) : DateTime := { t with micro := 0 }

def natDigits (n : Nat) : PyStr := Nat.toDigits 10 n

def zeroPad (w : Nat) (s : PyStr) : PyStr := List.replicate (w - s.length) '0' ++ s

/-- `tstamp.strftime('%Y%m%d%H%M%S')`. -/
def format_timestamp (t : DateTime) : PyStr :=
  zeroPad 4 (natDigits t.year) ++ zeroPad 2 (natDigits t.month) ++ zeroPad 2 (natDigits t.day) ++
  zeroPad 2 (natDigits t.hour) ++ zeroPad 2 (natDigits t.minute) ++ zeroPad 2 (natDigits t.second)

def digitVal (c : Char) : Nat := c.toNat - '0'.toNat

def natOfDigits (s : PyStr) : Nat := s.foldl (fun a c => a * 10 + digitVal c) 0

def isLeapYear (y : Nat) : Bool := (decide (y % 4 = 0) && decide (y % 100 ≠ 0)) || decide (y % 400 = 0)

def daysInMonth (y m : Nat) : Nat :=
  if m = 2 then (if isLeapYear y then 29 else 28)
  else if m = 4 ∨ m = 6 ∨ m = 9 ∨ m = 11 then 30
  else 31

/-- `datetime.strptime(string, '%Y%m%d%H%M%S')` on a 14-digit string;
raises ValueError when any field is out of range (Python validates the
calendar: month 1-12, day against the month, hour/minute/second). -/
def parse_timestamp (s : PyStr) : Except PyError DateTime :=
  let y := natOfDigits (s.take 4)
  let mo := natOfDigits ((s.drop 4).take 2)
  let d := natOfDigits ((s.drop 6).take 2)
  let h := natOfDigits ((s.drop 8).take 2)
  let mi := natOfDigits ((s.drop 10).take 2)
  let sec := natOfDigits ((s.drop 12).take 2)
  if 1 ≤ y ∧ 1 ≤ mo ∧ mo ≤ 12 ∧ 1 ≤ d ∧ d ≤ daysInMonth y mo ∧ h ≤ 23 ∧ mi ≤ 59 ∧ sec ≤ 59 then
    .ok ⟨y, mo, d, h, mi, sec, 0⟩
  else .error .valueError

/-! ## make_safe_filename (juliet.py lines 23-31) -/

def safe_filename_chars : PyStr := ['.', '-', '_', ' ']

/-- One character of the filter: `c.isalnum() or c in safe_filename_chars`.
Python's `isalnum` is Unicode-aware; the embedding uses the ASCII
alphanumerics (the protocol is ASCII-armored, and no claim depends on
the wider class). -/
def isSafeKeep (c : Char) : Bool := c.isAlphanum || safe_filename_chars.contains c

/-- Python's `str.strip()` whitespace set, restricted to the ASCII
whitespace characters. -/
def isPyWs (c : Char) : Bool := [' ', '\t', '\n', '\r', '\x0b', '\x0c'].contains c

def pyStrip (l : PyStr) : PyStr := ((l.dropWhile isPyWs).reverse.dropWhile isPyWs).reverse

/-- `make_safe_filename` (lines 25-31): `None` for an absent or empty
input, otherwise keep only allowed characters and strip the ends. -/
def make_safe_filename (nameIn : Option PyStr) : Option PyStr :=
  match nameIn with
  | none => none
  | some s => if s = [] then none else some (pyStrip (s.filter isSafeKeep))

/-! ## Messages and content codecs (juliet.py lines 99-301) -/

/-- The message variants reachable from the decode dispatch
(`ThreadedMessage`, version 2, is defined in the source but not wired
into `unpack`). -/
inductive MsgKind where
  | text    -- TextMessage, version 0
  | ctext   -- CompressedTextMessage, version 1
  | file    -- FileMessage, version 3
deriving DecidableEq

/-- The mutable state of a Message object.  `filename`/`mimetype` are
meaningful only for the File variant and are `none` elsewhere. -/
structure Msg where
  kind : MsgKind
  content : PyStr
  sender : Option PyStr
  signature : Option PyStr
  timestamp : DateTime
  filename : Option PyStr
  mimetype : Option PyStr
deriving DecidableEq

/-- `version` class attribute of each variant. -/
def msgVersion : MsgKind → Nat
  | .text => 0
  | .ctext => 1
  | .file => 3

/-- `Message.__init__`: an absent timestamp defaults to `datetime.now
(tz=utc)` (the `now` argument of the embedding); the result is
truncated to whole seconds. -/
def mkBaseMsg (kind : MsgKind) (content : PyStr) (sender signature : Option PyStr)
    (timestamp : Option DateTime) (now : DateTime) : Msg :=
  { kind := kind, content := content, sender := sender, signature := signature,
    timestamp := truncSeconds (timestamp.getD now), filename := none, mimetype := none }

/-- `TextMessage(content, sender, signature, timestamp)` constructed by
an application (decode-side construction always passes the defaults). -/
def textMessage (content : PyStr) (sender signature : Option PyStr)
    (timestamp : Option DateTime) (now : DateTime) : Msg :=
  mkBaseMsg .text content sender signature timestamp now

/-- The zlib-compress + base64 pipeline of `CompressedMessage.compress`
and `CompressedMessage.decompress`.  These call the external `zlib` and
`base64` libraries, which are not part of this repository; the
embedding is parametric in their behaviour.  `decompressStr` may fail
(invalid base64 padding or deflate data raise in Python). -/
structure ContentCodec where
  compressStr : PyStr → PyStr
  decompressStr : PyStr → Except PyError PyStr

/-- A concrete stand-in codec (identity, never failing) used to
instantiate codec-parametric theorems at explicit inputs.  No claim
settled with it depends on the behaviour of the real pipeline: every
use either never reaches the codec or only needs some codec for which
`decompressStr` succeeds. -/
def idCodec : ContentCodec := ⟨fun s => s, fun s => .ok s⟩

/-- `TextMessage.pack_content`: `content.replace(':', '\\:')`. -/
def escapeColons (s : PyStr) : PyStr :=
  s.foldr (fun c acc => if c = ':' then '\\' :: ':' :: acc else c :: acc) []

/-- `TextMessage.unpack_content`: `content.replace('\\:', ':')`
(left-to-right, non-overlapping, like Python `str.replace`). -/
def unescapeColons : PyStr → PyStr
  | '\\' :: ':' :: rest => ':' :: unescapeColons rest
  | c :: rest => c :: unescapeColons rest
  | [] => []

/-- `pack_content` dispatched over the variants (lines 220-221, 233-234,
290-294).  For File: `(make_safe_filename(self.filename) or '') + '|' +
(self.mimetype or '') + '|' + self.compress(self.content)`. -/
def pack_content (z : ContentCodec) (m : Msg) : PyStr :=
  match m.kind with
  | .text => escapeColons m.content
  | .ctext => z.compressStr m.content
  | .file =>
    ((make_safe_filename m.filename).getD []) ++ '|' ::
      ((m.mimetype.getD []) ++ '|' :: z.compressStr m.content)

/-- The checksum embedded by `Message.pack` (line 139):
`checksum(sender, tstamp, content, sig)` where absent sender/signature
have already been replaced by empty strings. -/
def packCrc (z : ContentCodec) (m : Msg) : Nat :=
  checksum [some (m.sender.getD []), some (format_timestamp m.timestamp),
            some (pack_content z m), some (m.signature.getD [])]

def hexUpperNat (n : Nat) : PyStr := (Nat.toDigits 16 n).map Char.toUpper

def hex4 (n : Nat) : PyStr := zeroPad 4 (hexUpperNat n)

/-- `Message.pack` (lines 133-144):
`f'>>{version:X}:{crc:04X}:{sender}:{tstamp}:{content}:{sig}<<'`
encoded as UTF-8. -/
def pack (z : ContentCodec) (m : Msg) : PyBytes :=
  let sender := m.sender.getD []
  let tstamp := format_timestamp m.timestamp
  let sig := m.signature.getD []
  let content := pack_content z m
  let crc := packCrc z m
  utf8Encode ('>' :: '>' :: (hexUpperNat (msgVersion m.kind) ++ ':' :: (hex4 crc ++ ':' ::
    (sender ++ ':' :: (tstamp ++ ':' :: (content ++ ':' :: (sig ++ ['<', '<'])))))))

/-! ## The frame grammar as a deterministic parse (packed_msg_re)

The regex is deterministic up to backtracking that always fails:
every bounded field (`ver`, `crc`, `sender`) is a greedy character-class
run followed by a literal `:` that is outside the class, so any shorter
choice for the run puts a class character where `:` is required and
fails immediately; the optional 14-digit timestamp is committed by
whether the next character is `:` or a digit; and the greedy `msg` body
forces the `sig` split to the last `:` of the remainder, because the
`sig` class excludes `:`.  The lookahead `(?!\\)` sits where the next
character must be `:`, so it can never fail.  Python's `$` also matches
just before one trailing newline. -/

structure FrameGroups where
  ver : PyStr
  crc : PyStr
  sender : Option PyStr
  time : Option PyStr
  msg : PyStr
  sig : Option PyStr
deriving DecidableEq

/-- `:(?P<time>[0-9]{14})?:` - either the field is empty, or it is
exactly 14 digits followed by `:`. -/
def parseTimeField (r : PyStr) : Option (Option PyStr × PyStr) :=
  match r with
  | ':' :: rest => some (none, rest)
  | _ =>
    let t := r.take 14
    if t.length = 14 && t.all isDigitCh then
      match r.drop 14 with
      | ':' :: rest => some (some t, rest)
      | _ => none
    else none

/-- `(?P<msg>.+)(?!\\):(?P<sig>[a-zA-Z0-9]+)?<<$` applied to the
remainder: at most one trailing newline, then a literal `<<`; the
greedy body takes everything up to the last `:`; the signature after it
must be alphanumeric (empty means group absent); the body must be
non-empty and must not contain a newline (`.` excludes it). -/
def parseMsgSig (r : PyStr) : Option (PyStr × Option PyStr) :=
  let r' := match r.getLast? with
            | some c => if c = '\n' then r.dropLast else r
            | none => r
  match r'.reverse with
  | '<' :: '<' :: mrev =>
    let srev := mrev.takeWhile (fun c => c != ':')
    match mrev.dropWhile (fun c => c != ':') with
    | ':' :: mbodyRev =>
      let mbody := mbodyRev.reverse
      let s := srev.reverse
      if mbody = [] then none
      else if mbody.any (fun c => c == '\n') then none
      else if s.all isAsciiAlnum then some (mbody, if s = [] then none else some s)
      else none
    | _ => none
  | _ => none

/-- `packed_msg_re.match(text)`: `none` models both a failed match and
any malformed frame. -/
def parseFrame (text : PyStr) : Option FrameGroups :=
  match text with
  | '>' :: '>' :: r0 =>
    let ver := r0.takeWhile isHexDigitCh
    if ver = [] then none else
    match r0.dropWhile isHexDigitCh with
    | ':' :: r1 =>
      let crc := r1.takeWhile isAsciiAlnum
      if crc = [] then none else
      match r1.dropWhile isAsciiAlnum with
      | ':' :: r2 =>
        let sender := r2.takeWhile isSenderCh
        match r2.dropWhile isSenderCh with
        | ':' :: r3 =>
          match parseTimeField r3 with
          | none => none
          | some (time, r4) =>
            match parseMsgSig r4 with
            | none => none
            | some (mbody, sig) =>
              some { ver := ver, crc := crc,
                     sender := if sender = [] then none else some sender,
                     time := time, msg := mbody, sig := sig }
        | _ => none
      | _ => none
    | _ => none
  | _ => none

/-! ## Message.unpack (juliet.py lines 147-189) -/

def hexDigitVal (c : Char) : Nat :=
  if isDigitCh c then c.toNat - '0'.toNat
  else if decide ('a' ≤ c) && decide (c ≤ 'f') then c.toNat - 'a'.toNat + 10
  else c.toNat - 'A'.toNat + 10

def hexVal (s : PyStr) : Nat := s.foldl (fun a c => a * 16 + hexDigitVal c) 0

/-- `int(s, 16)`: raises ValueError on an empty string or a non-hex
character (the `crc` group admits all of `[a-zA-Z0-9]`). -/
def parseHexStrict (s : PyStr) : Except PyError Nat :=
  if s = [] then .error .valueError
  else if s.all isHexDigitCh then .ok (hexVal s)
  else .error .valueError

/-- The version dispatch of `unpack` (lines 168-175): versions 0, 1 and
3 construct the corresponding variant with only `content` supplied;
anything else raises `Exception('unsupported version')`. -/
def constructByVersion (version : Nat) (content : PyStr) (now : DateTime) :
    Except PyError Msg :=
  if version = 0 then .ok (mkBaseMsg .text content none none none now)
  else if version = 1 then .ok (mkBaseMsg .ctext content none none none now)
  else if version = 3 then .ok (mkBaseMsg .file content none none none now)
  else .error .unsupportedVersion

/-- `content.split('|', 2)` unpacked into exactly three components;
fewer than two `|` raises ValueError at the tuple unpacking. -/
def splitPipe2 (s : PyStr) : Option (PyStr × PyStr × PyStr) :=
  match s.dropWhile (fun c => c != '|') with
  | '|' :: r2 =>
    match r2.dropWhile (fun c => c != '|') with
    | '|' :: r4 => some (s.takeWhile (fun c => c != '|'), r2.takeWhile (fun c => c != '|'), r4)
    | _ => none
  | _ => none

/-- `msg.unpack_content()` per variant (lines 224-225, 237-238,
297-301).  For File, `filename`/`mimetype` are taken from the content
(`mimetype if len(mimetype) > 0 else None`) and the remainder is
decompressed. -/
def unpack_content (z : ContentCodec) (m : Msg) : Except PyError Msg :=
  match m.kind with
  | .text => .ok { m with content := unescapeColons m.content }
  | .ctext =>
    match z.decompressStr m.content with
    | .error e => .error e
    | .ok s => .ok { m with content := s }
  | .file =>
    match splitPipe2 m.content with
    | none => .error .valueError
    | some (fname, mt, comp) =>
      match z.decompressStr comp with
      | .error e => .error e
      | .ok s => .ok { m with filename := make_safe_filename (some fname),
                              mimetype := if mt = [] then none else some mt,
                              content := s }

/-- The body of `unpack` after a successful regex match (lines 165-189),
in source order: version dispatch (may raise), `int(crc, 16)` (may
raise), timestamp parsing (raises TypeError when the group is absent,
ValueError on an invalid calendar date) - note the parsed timestamp is
bound to a local variable and never assigned to the message - then
sender/signature assignment and `unpack_content`. -/
def processMatch (z : ContentCodec) (now : DateTime) (g : FrameGroups) :
    Except PyError (Option Msg) :=
  match constructByVersion (hexVal g.ver) g.msg now with
  | .error e => .error e
  | .ok m0 =>
    match parseHexStrict g.crc with
    | .error e => .error e
    | .ok _crcVal =>
      match (match g.time with
             | none => (.error .typeError : Except PyError DateTime)
             | some t => parse_timestamp t) with
      | .error e => .error e
      | .ok _tstamp =>
        let m1 := { m0 with sender := g.sender, signature := g.sig }
        match unpack_content z m1 with
        | .error e => .error e
        | .ok m2 => .ok (some m2)

/-- `Message.unpack(data)`.  `None`/empty data and undecodable or
unmatched text return `None` (`.ok none`); exceptions raised further
down propagate to the caller as `.error`. -/
def unpack (z : ContentCodec) (now : DateTime) (data : Option PyBytes) :
    Except PyError (Option Msg) :=
  match data with
  | none => .ok none
  | some bs =>
    if bs = [] then .ok none
    else
      match utf8Decode bs with
      | none => .ok none
      | some text =>
        match parseFrame text with
        | none => .ok none
        | some g => processMatch z now g

/-! ## Broker receive path and transports (juliet.py lines 306-460) -/

/-- `MessageBroker._radio_recv` runs `Message.unpack` with no exception
handling and delivers a non-None result to the subscribers; the serial
receive worker that invokes it also has no handler, so an exception
terminates the receive loop.  `recvFrames` folds the receive loop over
a list of incoming records: it returns the messages delivered before
any fault and, when a frame raised, the exception that killed the loop
(all later frames are left unprocessed). -/
def recvFrames (z : ContentCodec) (now : DateTime) :
    List (Option PyBytes) → List Msg × Option PyError
  | [] => ([], none)
  | d :: rest =>
    match unpack z now d with
    | .error e => ([], some e)
    | .ok m =>
      let (ms, fault) := recvFrames z now rest
      (m.toList ++ ms, fault)

/-- Notifications fired by a transport. -/
inductive CommEvent where
  | xmit (data : Option PyBytes)
  | recv (data : Option PyBytes)
deriving DecidableEq

/-- `CommLoop.send` (lines 360-363): fires `on_xmit` then `on_recv`
with the same payload, unconditionally, and returns `None` (modelled as
`Option Bool`; Python has no return statement here). -/
def commLoopSend (data : Option PyBytes) : List CommEvent × Option Bool :=
  ([.xmit data, .recv data], none)

/-- The state of a `RadioComm` relevant to send/close: the stop flag
read by both workers, the transmit queue, the chunks written to the
serial device so far, and whether the device is open. -/
structure RadioState where
  workersActive : Bool
  xmitQueue : List PyBytes
  deviceWrites : List PyBytes
  commOpen : Bool
deriving DecidableEq

/-- `RadioComm.send` (lines 396-403): empty or absent data returns
False; otherwise the data is put on the transmit queue and True is
returned.  No other state is consulted - in particular not the stop
flag or the device. -/
def radioSend (st : RadioState) (data : Option PyBytes) : Bool × RadioState :=
  match data with
  | none => (false, st)
  | some d =>
    if d = [] then (false, st)
    else (true, { st with xmitQueue := st.xmitQueue ++ [d] })

/-- `RadioComm.close` (lines 406-421): clears the stop flag, joins both
workers and closes the device. -/
def radioClose (st : RadioState) : RadioState :=
  { st with workersActive := false, commOpen := false }

/-- One iteration of `_xmit_worker` (lines 441-460): `none` when the
`while self.workers_active` guard fails and the loop exits; otherwise
dequeue one pending buffer if present and write it to the device. -/
def xmitStep (st : RadioState) : Option RadioState :=
  if st.workersActive = false then none
  else
    match st.xmitQueue with
    | [] => some st
    | d :: rest => some { st with xmitQueue := rest, deviceWrites := st.deviceWrites ++ [d] }

/-- Run up to `n` transmit-worker iterations. -/
def xmitRun : Nat → RadioState → RadioState
  | 0, st => st
  | n + 1, st =>
    match xmitStep st with
    | none => st
    | some st' => xmitRun n st'

/-! ## Concrete fixtures used to settle the claims -/

/-- A concrete decode-time clock value. -/
def dt2022 : DateTime := ⟨2022, 1, 1, 0, 0, 0, 0⟩

/-- A freshly opened radio state: workers running, empty queue, nothing
written, device open. -/
def st0 : RadioState := ⟨true, [], [], true⟩

/-- Decidable check that a string has no leading and no trailing
whitespace character. -/
def noEdgeWs (l : PyStr) : Bool :=
  (match l.head? with | some a => !isPyWs a | none => true) &&
  (match l.getLast? with | some a => !isPyWs a | none => true)

/-! # Supporting lemmas -/

/-- One source iteration of the inner bit loop agrees with the
spec-level bit step applied to the byte's current low bit. -/
theorem crc16SrcStep_eq (crc cur : Nat) :
    (if ((crc &&& 1) ^^^ (cur &&& 1)) ≠ 0 then (crc >>> 1) ^^^ 0x1021 else crc >>> 1)
      = crc16BitStep crc (Nat.testBit cur 0) := by
  rw [crc16BitStep, Nat.and_one_is_mod, Nat.and_one_is_mod, Nat.testBit_zero]
  rcases Nat.mod_two_eq_zero_or_one crc with h1 | h1 <;>
    rcases Nat.mod_two_eq_zero_or_one cur with h2 | h2 <;>
      simp [h1, h2]

/-- The inner loop over `n` remaining iterations consumes the low `n`
bits of the byte, least-significant first. -/
theorem crc16ByteAux_eq_bits (n : Nat) : ∀ crc cur : Nat,
    crc16ByteAux n crc cur
      = ((List.range n).map (fun i => Nat.testBit cur i)).foldl crc16BitStep crc := by
  induction n with
  | zero => intro crc cur; simp [crc16ByteAux]
  | succ n ih =>
    intro crc cur
    rw [crc16ByteAux, ih, List.range_succ_eq_map, List.map_cons, List.foldl_cons,
      List.map_map, crc16SrcStep_eq]
    congr 1
    apply List.map_congr_left
    intro i _
    show Nat.testBit (cur >>> 1) i = Nat.testBit cur (i + 1)
    rw [Nat.shiftRight_succ, Nat.shiftRight_zero, Nat.testBit_div_two]

/-- Masking with `0xFF & b` keeps exactly the 8 bits the loop reads. -/
theorem crc16Byte_eq_bits (crc b : Nat) :
    crc16Byte crc b = (byteBitsLSB b).foldl crc16BitStep crc := by
  rw [crc16Byte, crc16ByteAux_eq_bits, byteBitsLSB]
  congr 1
  apply List.map_congr_left
  intro i hi
  have hi8 : i < 8 := List.mem_range.mp hi
  have h255 : (0xFF : Nat) = 2 ^ 8 - 1 := by norm_num
  rw [h255, Nat.testBit_land, Nat.testBit_two_pow_sub_one]
  simp [hi8]

theorem crc16_foldl_eq_bits (l : PyBytes) : ∀ init : Nat,
    l.foldl crc16Byte init
      = l.foldl (fun c b => (byteBitsLSB b).foldl crc16BitStep c) init := by
  induction l with
  | nil => intro init; rfl
  | cons b bs ih => intro init; rw [List.foldl_cons, List.foldl_cons, ih, crc16Byte_eq_bits]

/-- The source finalisation equals the spec's complement-then-byte-swap. -/
theorem crc16Fin_eq_spec (r : Nat) : crc16Fin r = swapBytes16 (complement16 r) := by
  rw [crc16Fin, swapBytes16, complement16, Nat.xor_comm (r &&& 0xFFFF) 0xFFFF]
  have hlt : 0xFFFF ^^^ (r &&& 0xFFFF) < 2 ^ 16 :=
    Nat.xor_lt_two_pow (by norm_num) (Nat.lt_of_le_of_lt Nat.and_le_right (by norm_num))
  have hdiv : (0xFFFF ^^^ (r &&& 0xFFFF)) >>> 8 < 2 ^ 8 := by
    rw [Nat.shiftRight_eq_div_pow]
    exact Nat.div_lt_of_lt_mul (by norm_num at hlt ⊢; omega)
  have hmask : ((0xFFFF ^^^ (r &&& 0xFFFF)) >>> 8) &&& 0xFF = (0xFFFF ^^^ (r &&& 0xFFFF)) >>> 8 := by
    have h8 : (0xFF : Nat) = 2 ^ 8 - 1 := by norm_num
    rw [h8]
    exact Nat.and_pow_two_sub_one_of_lt_two_pow hdiv
  rw [hmask]

/-- Characters of the stripped string come from the original string. -/
theorem mem_of_mem_pyStrip {c : Char} {l : PyStr} (h : c ∈ pyStrip l) : c ∈ l := by
  rw [pyStrip, List.mem_reverse] at h
  have h2 : c ∈ (l.dropWhile isPyWs).reverse := (List.dropWhile_sublist _).subset h
  rw [List.mem_reverse] at h2
  exact (List.dropWhile_sublist _).subset h2

/-- The head surviving `dropWhile p` fails `p`. -/
theorem head_dropWhile_false {p : Char → Bool} : ∀ (l : PyStr) (a : Char),
    (l.dropWhile p).head? = some a → p a = false := by
  intro l
  induction l with
  | nil => intro a h; simp [List.dropWhile] at h
  | cons c cs ih =>
    intro a h
    rw [List.dropWhile_cons] at h
    by_cases hc : p c = true
    · rw [if_pos hc] at h; exact ih a h
    · rw [if_neg hc] at h
      simp at h
      rw [← h]
      exact Bool.eq_false_iff.mpr hc

/-- `dropWhile` keeps the last element of a list it does not empty. -/
theorem getLast?_dropWhile {p : Char → Bool} : ∀ (l : PyStr),
    l.dropWhile p ≠ [] → (l.dropWhile p).getLast? = l.getLast? := by
  intro l
  induction l with
  | nil => intro h; simp [List.dropWhile] at h
  | cons c cs ih =>
    intro h
    rw [List.dropWhile_cons]
    rw [List.dropWhile_cons] at h
    by_cases hc : p c = true
    · rw [if_pos hc] at h ⊢
      have hcs : cs ≠ [] := by
        intro hnil
        rw [hnil] at h
        simp [List.dropWhile] at h
      rw [ih h]
      match cs, hcs with
      | b :: l, _ => rw [List.getLast?_cons_cons]
    · rw [if_neg hc]

theorem noEdgeWs_pyStrip (l : PyStr) : noEdgeWs (pyStrip l) = true := by
  rw [noEdgeWs, Bool.and_eq_true]
  constructor
  · rw [pyStrip, List.head?_reverse]
    match hz : (((l.dropWhile isPyWs).reverse).dropWhile isPyWs).getLast? with
    | none => rfl
    | some a =>
      have hne : ((l.dropWhile isPyWs).reverse).dropWhile isPyWs ≠ [] := by
        intro hnil; rw [hnil] at hz; simp at hz
      rw [getLast?_dropWhile _ hne, List.getLast?_reverse] at hz
      simp [head_dropWhile_false _ _ hz]
  · rw [pyStrip, List.getLast?_reverse]
    match hz : (((l.dropWhile isPyWs).reverse).dropWhile isPyWs).head? with
    | none => rfl
    | some a => simp [head_dropWhile_false _ _ hz]

/-! # The claims -/

/-- Claim C4: the `crc16` function implements the described 16-bit CRC
bit-exactly - polynomial 0x1021, initial value 0xFFFF, bit-serial
LSB-first processing of each input byte, final one's-complement and
byte-swap (formalised as agreement with `crc16_ccitt_spec`, which is
written from that description) - and on the fixed input `123456789` it
deterministically yields the fixed value 0x45E2. -/
theorem claim4_crc16_bitexact_and_check_value :
    (∀ (data : PyBytes) (crc0 : Nat), crc16 data crc0 = crc16_ccitt_spec data crc0) ∧
    crc16 (utf8Encode ("123456789".data)) 0xFFFF = 0x45E2 := by
  constructor
  · intro data crc0
    rw [crc16, crc16_ccitt_spec, crc16_foldl_eq_bits, crc16Fin_eq_spec]
  · rfl

/-- Claim C6 (amended): the checksum embedded by `pack` is the chained
application of `crc16` to the four fields in order - absent sender and
signature contribute as empty strings, and each chain step applies the
full `crc16` (including the final complement and byte-swap) seeded with
the previous step's result.  `checksum` itself skips `None` parts.
Chaining is not equal to `crc16` of the concatenated fields (see the
counterexample). -/
theorem claim6_checksum_chains_crc16_per_field :
    (∀ parts : List (Option PyStr), checksum (none :: parts) = checksum parts) ∧
    (∀ (z : ContentCodec) (m : Msg),
      packCrc z m = crc16Str (m.signature.getD [])
        (crc16Str (pack_content z m)
          (crc16Str (format_timestamp m.timestamp)
            (crc16Str (m.sender.getD []) 0xFFFF)))) :=
  ⟨fun _ => rfl, fun _ _ => rfl⟩

/-- Claim C6 counterexample: for a packed TextMessage with content `A`,
no sender and no signature, the embedded checksum differs from the
CRC16 of the concatenation of the present fields (timestamp-string then
content): the chained value is 1064, the concatenated value 38391. -/
theorem claim6_counterexample :
    packCrc idCodec (textMessage ("A".data) none none (some ⟨2021, 1, 1, 0, 0, 0, 0⟩) dt2022)
      ≠ crc16Str (format_timestamp ⟨2021, 1, 1, 0, 0, 0, 0⟩ ++ ("A".data)) 0xFFFF := by
  decide

/-- Claim C7 (amended): the serial transport's `send` is a no-op
returning False for an empty or absent payload; the loopback
transport's `send`, however, performs no empty-payload check - it fires
the xmit notification and then the recv notification with the payload
as given (also when empty or absent) and returns None, not False. -/
theorem claim7_empty_send_serial_vs_loopback :
    (∀ st : RadioState, radioSend st none = (false, st) ∧ radioSend st (some []) = (false, st)) ∧
    (∀ d : Option PyBytes, commLoopSend d = ([.xmit d, .recv d], none)) :=
  ⟨fun _ => ⟨rfl, rfl⟩, fun _ => rfl⟩

/-- Claim C7 counterexample: on the loopback transport, `send` with an
empty payload fires both notifications (with the empty payload) and
does not return False, refuting the claim for "every transport
implementation". -/
theorem claim7_counterexample :
    (commLoopSend (some [])).1 = [.xmit (some []), .recv (some [])] ∧
    (commLoopSend (some [])).2 ≠ some false :=
  ⟨rfl, by decide⟩

/-- Claim C8 (amended): after `close`, `send` still succeeds for a
non-empty payload - it returns True and appends the data to the
transmit queue - but the queued data is never written to the device,
because the transmit worker observes the cleared stop flag and exits
without performing any further device writes; `send` itself never
touches the device. -/
theorem claim8_send_after_close_still_queues :
    (∀ (st : RadioState) (b : Nat) (bs : PyBytes),
      radioSend (radioClose st) (some (b :: bs))
        = (true, { radioClose st with xmitQueue := (radioClose st).xmitQueue ++ [b :: bs] })) ∧
    (∀ (st : RadioState) (n : Nat), xmitRun n (radioClose st) = radioClose st) := by
  constructor
  · intro st b bs; rfl
  · intro st n
    cases n with
    | zero => rfl
    | succ n => rfl

/-- Claim C8 counterexample: from a freshly opened state, after
`close`, `send` of a non-empty payload returns True and the payload
sits in the transmit queue - `send` does not fail, contradicting the
claim that it cannot succeed in queueing data. -/
theorem claim8_counterexample :
    (radioSend (radioClose st0) (some [104, 105])).1 = true ∧
    (radioSend (radioClose st0) (some [104, 105])).2.xmitQueue = [[104, 105]] :=
  ⟨rfl, rfl⟩

/-- Claim C10: `unpack` of absent data (`None`) or an empty byte
sequence is the no-message result, before any decoding or parsing is
attempted (the result does not depend on the codec or the clock). -/
theorem claim10_unpack_absent_or_empty :
    ∀ (z : ContentCodec) (now : DateTime),
      unpack z now none = .ok none ∧ unpack z now (some []) = .ok none :=
  fun _ _ => ⟨rfl, rfl⟩

/-- Claim C1 (code bug): `unpack` parses the frame's 14-digit timestamp
into a local variable but never assigns it to the reconstructed
message, whose timestamp is therefore the decode-time clock (truncated
to whole seconds), not the packed timestamp.  Evaluated at the failing
input: a TextMessage with timestamp 2021-01-02 03:04:05 packed and then
unpacked at clock 2022-05-06 07:08:09.123456 comes back with variant,
content and sender preserved but timestamp 2022-05-06 07:08:09. -/
theorem claim1_roundtrip_loses_timestamp :
    unpack idCodec ⟨2022, 5, 6, 7, 8, 9, 123456⟩
      (some (pack idCodec (textMessage ("hi".data) (some ("alice".data)) none
        (some ⟨2021, 1, 2, 3, 4, 5, 0⟩) dt2022)))
      = .ok (some { kind := .text, content := ("hi".data), sender := some ("alice".data),
                    signature := none, timestamp := ⟨2022, 5, 6, 7, 8, 9, 0⟩,
                    filename := none, mimetype := none }) ∧
    (⟨2022, 5, 6, 7, 8, 9, 0⟩ : DateTime)
      ≠ (textMessage ("hi".data) (some ("alice".data)) none
          (some ⟨2021, 1, 2, 3, 4, 5, 0⟩) dt2022).timestamp :=
  ⟨rfl, by decide⟩

/-- Claim C2 (amended): for every version tag outside {0, 1, 3} the
decode dispatch raises a plain unsupported-version exception instead of
returning a failure value; the broker's receive handler does not catch
it, so the exception propagates out of the receive worker and the
receive loop dies - any frame following the offending one is left
unprocessed. -/
theorem claim2_unsupported_version_uncaught :
    (∀ (v : Nat) (content : PyStr) (now : DateTime), v ≠ 0 → v ≠ 1 → v ≠ 3 →
      constructByVersion v content now = .error .unsupportedVersion) ∧
    (∀ (z : ContentCodec) (now : DateTime) (d : Option PyBytes)
        (rest : List (Option PyBytes)) (e : PyError),
      unpack z now d = .error e → recvFrames z now (d :: rest) = ([], some e)) := by
  constructor
  · intro v c now h0 h1 h3
    simp [constructByVersion, h0, h1, h3]
  · intro z now d rest e h
    simp [recvFrames, h]

/-- Claim C2 witness: the amended theorem applied at version 7 and at a
concrete version-7 frame arriving first in the receive loop. -/
theorem claim2_witness :
    constructByVersion 7 [] dt2022 = .error .unsupportedVersion ∧
    recvFrames idCodec dt2022
      [some (utf8Encode (">>7:AAAA:bob:20210102030405:hi:<<".data))]
      = ([], some .unsupportedVersion) :=
  ⟨claim2_unsupported_version_uncaught.1 7 [] dt2022 (by decide) (by decide) (by decide),
   claim2_unsupported_version_uncaught.2 idCodec dt2022
     (some (utf8Encode (">>7:AAAA:bob:20210102030405:hi:<<".data))) [] .unsupportedVersion rfl⟩

/-- Claim C2 counterexample: a version-7 frame followed by a perfectly
good version-0 frame - the good frame decodes fine on its own, but when
it arrives after the version-7 frame the receive loop has died with the
uncaught exception and processes nothing, refuting "remains able to
process the next frame". -/
theorem claim2_counterexample :
    recvFrames idCodec dt2022
      [some (utf8Encode (">>7:AAAA:bob:20210102030405:hi:<<".data)),
       some (utf8Encode (">>0:FFFF:bob:20210102030405:ok:<<".data))]
      = ([], some .unsupportedVersion) ∧
    recvFrames idCodec dt2022
      [some (utf8Encode (">>0:FFFF:bob:20210102030405:ok:<<".data))]
      = ([{ kind := .text, content := ("ok".data), sender := some ("bob".data),
            signature := none, timestamp := dt2022, filename := none, mimetype := none }],
         none) :=
  ⟨rfl, rfl⟩

/-- Claim C3 (amended): `unpack` returns the no-message result for
byte sequences that are not decodable text and for decodable text that
does not match the frame grammar; a variant content-decoder failure,
however, raises an uncaught exception - for a grammar-valid File frame
whose content has no field separator, the tuple unpacking of
`content.split` raises ValueError out of `unpack`. -/
theorem claim3_malformed_yields_none_but_decoder_raises :
    (∀ (z : ContentCodec) (now : DateTime) (data : PyBytes),
      utf8Decode data = none → unpack z now (some data) = .ok none) ∧
    (∀ (z : ContentCodec) (now : DateTime) (data : PyBytes) (text : PyStr),
      utf8Decode data = some text → parseFrame text = none →
      unpack z now (some data) = .ok none) ∧
    unpack idCodec dt2022 (some (utf8Encode (">>3:0000::20210101000000:junk:<<".data)))
      = .error .valueError := by
  refine ⟨?_, ?_, rfl⟩
  · intro z now data h
    cases data with
    | nil => exact Option.noConfusion h
    | cons b bs =>
      simp only [unpack]
      rw [if_neg (List.cons_ne_nil b bs), h]
  · intro z now data text h1 h2
    cases data with
    | nil => rfl
    | cons b bs =>
      simp only [unpack]
      rw [if_neg (List.cons_ne_nil b bs), h1]
      show (match parseFrame text with
            | none => (Except.ok none : Except PyError (Option Msg))
            | some g => processMatch z now g) = Except.ok none
      rw [h2]

/-- Claim C3 witness: the amended theorem applied to the invalid byte
0xFF (not decodable UTF-8) and to the decodable text `hello` (no frame
grammar match). -/
theorem claim3_witness :
    unpack idCodec dt2022 (some [0xFF]) = .ok none ∧
    unpack idCodec dt2022 (some (utf8Encode ("hello".data))) = .ok none :=
  ⟨claim3_malformed_yields_none_but_decoder_raises.1 idCodec dt2022 [0xFF] rfl,
   claim3_malformed_yields_none_but_decoder_raises.2.1 idCodec dt2022
     (utf8Encode ("hello".data)) ("hello".data) rfl rfl⟩

/-- Claim C3 counterexample: a frame that matches the grammar with
version 3 but whose File content `junk` has no `|` separator makes
`unpack` raise (ValueError), instead of returning the no-message result
the claim promises for every content-decoder failure. -/
theorem claim3_counterexample :
    unpack idCodec dt2022 (some (utf8Encode (">>3:0000::20210101000000:junk:<<".data)))
      = .error .valueError ∧
    unpack idCodec dt2022 (some (utf8Encode (">>3:0000::20210101000000:junk:<<".data)))
      ≠ .ok none :=
  ⟨rfl, fun h => Except.noConfusion h⟩

/-- Claim C5 (amended): on decode the embedded checksum is parsed
(`int(crc, 16)`) but never verified and never surfaced: the result of
processing a matched frame is invariant under replacing the checksum
field by any other hex string, and there is no strict or lenient
configuration anywhere in the decode path - mismatched checksums are
accepted silently. -/
theorem claim5_checksum_parsed_never_verified :
    ∀ (z : ContentCodec) (now : DateTime) (g : FrameGroups) (c2 : PyStr),
      g.crc ≠ [] → g.crc.all isHexDigitCh = true → c2 ≠ [] → c2.all isHexDigitCh = true →
      processMatch z now { g with crc := c2 } = processMatch z now g := by
  intro z now g c2 h1 h2 h3 h4
  simp [processMatch, parseHexStrict, h1, h2, h3, h4]

/-- Claim C5 witness: the amended theorem applied to a concrete matched
frame, replacing checksum field `0000` by `ABCD`. -/
theorem claim5_witness :
    processMatch idCodec dt2022
      { ver := ("0".data), crc := ("ABCD".data), sender := none,
        time := some ("20210102030405".data), msg := ("hi".data), sig := none }
      = processMatch idCodec dt2022
      { ver := ("0".data), crc := ("0000".data), sender := none,
        time := some ("20210102030405".data), msg := ("hi".data), sig := none } :=
  claim5_checksum_parsed_never_verified idCodec dt2022
    { ver := ("0".data), crc := ("0000".data), sender := none,
      time := some ("20210102030405".data), msg := ("hi".data), sig := none }
    ("ABCD".data) (by decide) (by decide) (by decide) (by decide)

/-- Claim C5 counterexample: a frame whose embedded checksum field is
`0000` while the checksum of its fields is 15 decodes to a message with
no rejection and no flag - the mismatch is silently ignored, refuting
the claimed strict/lenient configuration choice. -/
theorem claim5_counterexample :
    hexVal ("0000".data)
      ≠ checksum [some ("alice".data), some ("20210102030405".data), some ("hi".data), some []] ∧
    unpack idCodec dt2022 (some (utf8Encode (">>0:0000:alice:20210102030405:hi:<<".data)))
      = .ok (some { kind := .text, content := ("hi".data), sender := some ("alice".data),
                    signature := none, timestamp := dt2022,
                    filename := none, mimetype := none }) :=
  ⟨by decide, rfl⟩

/-- Claim C9: `make_safe_filename` keeps only characters from
{alphanumeric, `.`, `-`, `_`, space} and strips leading/trailing
whitespace; the unsafe name `../etc/passwd!.txt` sanitises to
`..etcpasswd.txt` (allowed characters only, no separator survives); an
empty filename is `None`, and a File frame decoded with an empty
filename field carries `filename = none`, not an empty string. -/
theorem claim9_filename_sanitisation :
    (∀ s : PyStr, ((make_safe_filename (some s)).getD []).all isSafeKeep = true) ∧
    (∀ s : PyStr, noEdgeWs ((make_safe_filename (some s)).getD []) = true) ∧
    make_safe_filename (some ("../etc/passwd!.txt".data)) = some ("..etcpasswd.txt".data) ∧
    make_safe_filename (some ([] : PyStr)) = none ∧
    (∀ (z : ContentCodec) (comp s : PyStr) (t : DateTime),
      z.decompressStr comp = .ok s →
      unpack_content z { kind := .file, content := '|' :: '|' :: comp, sender := none,
                         signature := none, timestamp := t, filename := none, mimetype := none }
        = .ok { kind := .file, content := s, sender := none, signature := none,
                timestamp := t, filename := none, mimetype := none }) := by
  refine ⟨?_, ?_, rfl, rfl, ?_⟩
  · intro s
    by_cases hs : s = []
    · simp [make_safe_filename, hs]
    · simp only [make_safe_filename, hs, if_neg, Option.getD_some]
      rw [List.all_eq_true]
      intro c hc
      exact (List.mem_filter.mp (mem_of_mem_pyStrip hc)).2
  · intro s
    by_cases hs : s = []
    · simp [make_safe_filename, hs, noEdgeWs]
    · simp only [make_safe_filename, hs, if_neg, Option.getD_some]
      exact noEdgeWs_pyStrip _
  · intro z comp s t h
    simp [unpack_content, splitPipe2, h, make_safe_filename]

/-- Claim C9 witness: the universally quantified parts applied at the
concrete unsafe name and at a File decode with an empty filename field
under the concrete stand-in codec. -/
theorem claim9_witness :
    ((make_safe_filename (some ("  a/b.txt".data))).getD []).all isSafeKeep = true ∧
    unpack_content idCodec
      { kind := .file, content := '|' :: '|' :: ("data".data), sender := none,
        signature := none, timestamp := dt2022, filename := none, mimetype := none }
      = .ok { kind := .file, content := ("data".data), sender := none, signature := none,
              timestamp := dt2022, filename := none, mimetype := none } :=
  ⟨claim9_filename_sanitisation.1 ("  a/b.txt".data),
   claim9_filename_sanitisation.2.2.2.2 idCodec ("data".data) ("data".data) dt2022 rfl⟩

end Juliet
